import Mathlib

/-!
Shallow embedding of the Sikka SDK client (src/lib/client.ts) and proofs of
the specification claims about its authentication/session lifecycle and
request-dispatch layer.

Modelling conventions:
* Instants are `Int` milliseconds since the epoch (the JS `Date` value).
* The mutable fields `requestKey`, `refreshKey`, `requestKeyExpiresAt` of the
  client become an explicit `Session` record threaded through the operations.
* Each stateful operation returns an `OpOut`: the thrown-or-returned result,
  the session state after the operation (unchanged when it throws before any
  assignment, exactly as in the source), and the list of network calls the
  operation performed, in order.
* JS truthiness is modelled faithfully: `!s` on a string is true for both
  `null` and the empty string; a `Date` object is always truthy.
* `JSON.parse` / `response.json()` is a platform primitive, so the generic
  dispatchers take the parse function as an explicit argument; the one fact
  used about it (parsing an empty or all-whitespace body fails) appears as a
  hypothesis where needed.
-/

namespace Sikka

/-- Office-level credentials, immutable after construction. -/
structure SikkaClientCredentials where
  appId : String
  appKey : String
  officeId : String
  secretKey : String
deriving DecidableEq

/-- The mutable session triple of the client: fields `requestKey`,
`refreshKey` and `requestKeyExpiresAt` of `SikkaClient`, each
`string | null` (resp. `Date | null`) in the source. -/
structure Session where
  requestKey : Option String
  refreshKey : Option String
  requestKeyExpiresAt : Option Int
deriving DecidableEq

/-- The state of a freshly constructed client: all three fields `null`. -/
def initialSession : Session :=
  { requestKey := none, refreshKey := none, requestKeyExpiresAt := none }

/-- JS truthiness of a nullable string: `!x` is true exactly when `x` is
`null` or the empty string. -/
def strTruthy : Option String → Bool
  | none => false
  | some s => !(s == "")

/-- The distinct throw sites of the client, as an error taxonomy. -/
inductive SikkaError where
  | authFailed (msg : String)
  | notAuthenticated
  | noRefreshKey
  | apiRequestFailed (method : String) (endpoint : String) (status : Nat)
      (statusText : String) (body : String)
  | jsonParseFailed
deriving DecidableEq

/-- The message string each throw site passes to the `Error` constructor.
`jsonParseFailed` models the platform SyntaxError thrown by `JSON.parse` /
`response.json`, whose text is platform-defined; no claim inspects it. -/
def SikkaError.message : SikkaError → String
  | .authFailed m => "Sikka authentication failed: " ++ m
  | .notAuthenticated => "Not authenticated. Call authenticate() first."
  | .noRefreshKey => "No refresh key available. Call authenticate() first."
  | .apiRequestFailed m e st stx b =>
      "Sikka API " ++ m ++ " " ++ e ++ " failed: " ++ toString st ++ " " ++ stx ++ " - " ++ b
  | .jsonParseFailed => "JSON parse error"

/-- One outgoing network request made by the client. -/
inductive NetCall where
  | tokenRequest (grantType : String)
  | domainGet (endpoint : String) (query : List (String × String))
  | domainPost (endpoint : String) (query : List (String × String)) (body : String)
deriving DecidableEq

/-- Whether a network call is a domain request (as opposed to a token-endpoint
request). -/
def NetCall.isDomain : NetCall → Bool
  | .tokenRequest _ => false
  | .domainGet _ _ => true
  | .domainPost _ _ _ => true

/-- Result of one client operation: the returned value or thrown error, the
session state afterwards, and the network calls performed, in order. -/
structure OpOut (α : Type) where
  result : Except SikkaError α
  state : Session
  calls : List NetCall

/-- Structured error body of the token endpoint (`SikkaApiError` in
types.ts); each field may be absent. -/
structure SikkaApiError where
  error_description : Option String
  error : Option String
  message : Option String
deriving DecidableEq

/-- The fields of a successful token-endpoint response that the client reads;
`end_time` is already parsed to an instant (`new Date(response.end_time)`). -/
structure SikkaRequestKeyResponse where
  request_key : String
  refresh_key : String
  end_time : Int
deriving DecidableEq

/-- The token-endpoint HTTP outcome as the client observes it: success with a
parsed body, or a non-ok status whose body parsed to a `SikkaApiError`
(`some`) or failed to parse (`none`). -/
inductive TokenEndpointResponse where
  | success (r : SikkaRequestKeyResponse)
  | failure (status : Nat) (statusText : String) (body : Option SikkaApiError)
deriving DecidableEq

/-- `requestNewKey`: on a non-ok response, the message is
`error_description ?? error ?? message ?? fallback` where the fallback is
`status statusText`, and the fallback alone when the body did not parse. -/
def requestNewKey : TokenEndpointResponse → Except SikkaError SikkaRequestKeyResponse
  | .success r => .ok r
  | .failure status statusText body =>
      let fallback := toString status ++ " " ++ statusText
      let msg :=
        match body with
        | none => fallback
        | some e => (((e.error_description).orElse fun _ => e.error).orElse fun _ => e.message).getD fallback
      .error (.authFailed msg)

/-- `authenticate()`: posts a `request_key` grant; on success replaces the
whole session triple; on failure throws before any assignment. -/
def authenticate (s : Session) (resp : TokenEndpointResponse) : OpOut Unit :=
  match requestNewKey resp with
  | .error e => { result := .error e, state := s, calls := [.tokenRequest "request_key"] }
  | .ok r =>
      { result := .ok ()
        state := { requestKey := some r.request_key, refreshKey := some r.refresh_key,
                   requestKeyExpiresAt := some r.end_time }
        calls := [.tokenRequest "request_key"] }

/-- `clearAuth()`: sets all three session fields to `null`. -/
def clearAuth (_s : Session) : Session :=
  { requestKey := none, refreshKey := none, requestKeyExpiresAt := none }

/-- `refreshAuthentication()`: throws if `!this.refreshKey`; otherwise posts a
`refresh_key` grant and follows the same success/failure path as
`authenticate`. -/
def refreshAuthentication (s : Session) (resp : TokenEndpointResponse) : OpOut Unit :=
  if strTruthy s.refreshKey then
    match requestNewKey resp with
    | .error e => { result := .error e, state := s, calls := [.tokenRequest "refresh_key"] }
    | .ok r =>
        { result := .ok ()
          state := { requestKey := some r.request_key, refreshKey := some r.refresh_key,
                     requestKeyExpiresAt := some r.end_time }
          calls := [.tokenRequest "refresh_key"] }
  else { result := .error .noRefreshKey, state := s, calls := [] }

/-- One hour in milliseconds, the fixed refresh margin. -/
def oneHourMs : Int := 60 * 60 * 1000

/-- The refresh condition of `ensureAuthenticated`:
`this.requestKeyExpiresAt && this.requestKeyExpiresAt < oneHourFromNow`
(a `Date` object is always truthy, so the first conjunct is presence). -/
def shouldRefresh (s : Session) (now : Int) : Bool :=
  match s.requestKeyExpiresAt with
  | some e => decide (e < now + oneHourMs)
  | none => false

/-- `ensureAuthenticated()`: throws if `!this.requestKey`; refreshes when the
expiry is present and less than one hour away; otherwise does nothing. -/
def ensureAuthenticated (s : Session) (now : Int) (resp : TokenEndpointResponse) : OpOut Unit :=
  if strTruthy s.requestKey then
    if shouldRefresh s now then refreshAuthentication s resp
    else { result := .ok (), state := s, calls := [] }
  else { result := .error .notAuthenticated, state := s, calls := [] }

/-- `getRequestKey()`: throws if `!this.requestKey`, else returns it. -/
def getRequestKey (s : Session) : Except SikkaError String :=
  match s.requestKey with
  | none => .error .notAuthenticated
  | some k => if k == "" then .error .notAuthenticated else .ok k

/-- `isAuthenticated()`: false if `!this.requestKey || !this.requestKeyExpiresAt`,
else whether the expiry is strictly after the current instant. -/
def isAuthenticated (s : Session) (now : Int) : Bool :=
  match s.requestKey, s.requestKeyExpiresAt with
  | some k, some e => !(k == "") && decide (now < e)
  | _, _ => false

/-- `url.searchParams.set(key, value)` on a query modelled as an ordered
association list: overwrite an existing key in place, else append. -/
def setParam (q : List (String × String)) (key value : String) : List (String × String) :=
  if q.any (fun p => p.1 == key) then
    q.map (fun p => if p.1 == key then (key, value) else p)
  else q ++ [(key, value)]

/-- `url.searchParams.get(key)`: first value bound to the key, if any. -/
def qlookup (key : String) : List (String × String) → Option String
  | [] => none
  | p :: rest => if p.1 == key then some p.2 else qlookup key rest

/-- The query of an authenticated GET: `request_key` is set first, then each
caller-supplied parameter is set in order (overwriting on collision). -/
def buildQuery (requestKey : String) (params : List (String × String)) : List (String × String) :=
  params.foldl (fun q kv => setParam q kv.1 kv.2) (setParam [] "request_key" requestKey)

/-- An HTTP response as the dispatcher observes it. -/
structure HttpResponse where
  ok : Bool
  status : Nat
  statusText : String
  body : String
deriving DecidableEq

/-- The paginated list envelope; the dispatcher only ever constructs or reads
the `items` field (`{ items: [] } as T`). -/
structure Envelope (α : Type) where
  items : List α
deriving DecidableEq

/-- `get(endpoint, params)`: ensure authentication (propagating any failure
without sending the domain request), stamp `request_key`, send, and on a
successful response return an empty envelope when the body text is empty or
all-whitespace, else `JSON.parse` it. -/
def getDispatch {α : Type} (s : Session) (now : Int) (tokenResp : TokenEndpointResponse)
    (endpoint : String) (params : List (String × String)) (resp : HttpResponse)
    (parseJson : String → Option (Envelope α)) : OpOut (Envelope α) :=
  let ensured := ensureAuthenticated s now tokenResp
  match ensured.result with
  | .error e => { result := .error e, state := ensured.state, calls := ensured.calls }
  | .ok _ =>
      match getRequestKey ensured.state with
      | .error e => { result := .error e, state := ensured.state, calls := ensured.calls }
      | .ok key =>
          let query := buildQuery key params
          let calls := ensured.calls ++ [.domainGet endpoint query]
          if resp.ok then
            if resp.body == "" || resp.body.trim == "" then
              { result := .ok { items := [] }, state := ensured.state, calls := calls }
            else
              match parseJson resp.body with
              | some d => { result := .ok d, state := ensured.state, calls := calls }
              | none => { result := .error .jsonParseFailed, state := ensured.state, calls := calls }
          else
            { result := .error (.apiRequestFailed "GET" endpoint resp.status resp.statusText resp.body)
              state := ensured.state, calls := calls }

/-- `post(endpoint, body)`: same preamble as `get`, but the response body is
passed to `response.json()` directly, with no empty-body tolerance. -/
def postDispatch {α : Type} (s : Session) (now : Int) (tokenResp : TokenEndpointResponse)
    (endpoint : String) (body : String) (resp : HttpResponse)
    (parseJson : String → Option α) : OpOut α :=
  let ensured := ensureAuthenticated s now tokenResp
  match ensured.result with
  | .error e => { result := .error e, state := ensured.state, calls := ensured.calls }
  | .ok _ =>
      match getRequestKey ensured.state with
      | .error e => { result := .error e, state := ensured.state, calls := ensured.calls }
      | .ok key =>
          let query := setParam [] "request_key" key
          let calls := ensured.calls ++ [.domainPost endpoint query body]
          if resp.ok then
            match parseJson resp.body with
            | some d => { result := .ok d, state := ensured.state, calls := calls }
            | none => { result := .error .jsonParseFailed, state := ensured.state, calls := calls }
          else
            { result := .error (.apiRequestFailed "POST" endpoint resp.status resp.statusText resp.body)
              state := ensured.state, calls := calls }

/-- Parameters of `patients.list`; every field is optional. -/
structure SikkaPatientListParams where
  firstname : Option String := none
  lastname : Option String := none
  birthdate : Option String := none
  patient_id : Option String := none
  limit : Option Nat := none
  offset : Option Nat := none

/-- Include a string field in the query mapping when it is JS-truthy
(`if (params.x) queryParams.x = params.x`). -/
def addIfTruthyStr (q : List (String × String)) (key : String) : Option String → List (String × String)
  | some s => if s == "" then q else q ++ [(key, s)]
  | none => q

/-- Include a numeric field when truthy, stringified
(`if (params.limit) queryParams.limit = String(params.limit)`). -/
def addIfTruthyNat (q : List (String × String)) (key : String) : Option Nat → List (String × String)
  | some n => if n == 0 then q else q ++ [(key, toString n)]
  | none => q

/-- The query mapping `patients.list` builds from its parameters, in source
order. -/
def patientListQueryParams (p : SikkaPatientListParams) : List (String × String) :=
  let q : List (String × String) := []
  let q := addIfTruthyStr q "firstname" p.firstname
  let q := addIfTruthyStr q "lastname" p.lastname
  let q := addIfTruthyStr q "birthdate" p.birthdate
  let q := addIfTruthyStr q "patient_id" p.patient_id
  let q := addIfTruthyNat q "limit" p.limit
  let q := addIfTruthyNat q "offset" p.offset
  q

/-- The fields of a transaction record that the client itself inspects; all
other fields of `SikkaTransaction` are passed through opaquely. -/
structure SikkaTransaction where
  transaction_sr_no : String
  claim_sr_no : String
  transaction_type : String
deriving DecidableEq

/-- The local filter of `transactions.listProcedures`, applied to the items
returned by the underlying `transactions.list` call:
`transactions.filter((txn) => txn.transaction_type === 'Procedure')`. -/
def listProceduresFilter (transactions : List SikkaTransaction) : List SikkaTransaction :=
  transactions.filter (fun txn => txn.transaction_type == "Procedure")

/-- The reachable session states of one client: the constructor state, closed
under every operation (keeping the old state when an operation throws). -/
inductive Reachable : Session → Prop
  | init : Reachable initialSession
  | auth (s : Session) (resp : TokenEndpointResponse) :
      Reachable s → Reachable (authenticate s resp).state
  | refresh (s : Session) (resp : TokenEndpointResponse) :
      Reachable s → Reachable (refreshAuthentication s resp).state
  | clear (s : Session) : Reachable s → Reachable (clearAuth s)
  | ensure (s : Session) (now : Int) (resp : TokenEndpointResponse) :
      Reachable s → Reachable (ensureAuthenticated s now resp).state
  | doGet {α : Type} (s : Session) (now : Int) (tokenResp : TokenEndpointResponse)
      (endpoint : String) (params : List (String × String)) (resp : HttpResponse)
      (parseJson : String → Option (Envelope α)) :
      Reachable s → Reachable (getDispatch s now tokenResp endpoint params resp parseJson).state
  | doPost {α : Type} (s : Session) (now : Int) (tokenResp : TokenEndpointResponse)
      (endpoint : String) (body : String) (resp : HttpResponse)
      (parseJson : String → Option α) :
      Reachable s → Reachable (postDispatch s now tokenResp endpoint body resp parseJson).state

/-! ### Helper lemmas about the shape of operation outcomes -/

/-- The session invariant of the data model: token and expiry are present
together. -/
def SessionInv (s : Session) : Prop :=
  s.requestKey.isSome ↔ s.requestKeyExpiresAt.isSome

theorem authenticate_state_cases (s : Session) (resp : TokenEndpointResponse) :
    (authenticate s resp).state = s ∨
      ∃ r, requestNewKey resp = .ok r ∧
        (authenticate s resp).state =
          { requestKey := some r.request_key, refreshKey := some r.refresh_key,
            requestKeyExpiresAt := some r.end_time } := by
  cases h : requestNewKey resp with
  | error e => exact Or.inl (by simp [authenticate, h])
  | ok r => exact Or.inr ⟨r, rfl, by simp [authenticate, h]⟩

theorem refreshAuthentication_state_cases (s : Session) (resp : TokenEndpointResponse) :
    (refreshAuthentication s resp).state = s ∨
      ∃ r, requestNewKey resp = .ok r ∧
        (refreshAuthentication s resp).state =
          { requestKey := some r.request_key, refreshKey := some r.refresh_key,
            requestKeyExpiresAt := some r.end_time } := by
  by_cases hk : strTruthy s.refreshKey
  · cases h : requestNewKey resp with
    | error e => exact Or.inl (by simp [refreshAuthentication, hk, h])
    | ok r => exact Or.inr ⟨r, rfl, by simp [refreshAuthentication, hk, h]⟩
  · exact Or.inl (by simp [refreshAuthentication, hk])

theorem ensureAuthenticated_state_cases (s : Session) (now : Int) (resp : TokenEndpointResponse) :
    (ensureAuthenticated s now resp).state = s ∨
      (ensureAuthenticated s now resp).state = (refreshAuthentication s resp).state := by
  unfold ensureAuthenticated
  split
  · split
    · exact Or.inr rfl
    · exact Or.inl rfl
  · exact Or.inl rfl

theorem getDispatch_state {α : Type} (s : Session) (now : Int) (tokenResp : TokenEndpointResponse)
    (endpoint : String) (params : List (String × String)) (resp : HttpResponse)
    (parseJson : String → Option (Envelope α)) :
    (getDispatch s now tokenResp endpoint params resp parseJson).state
      = (ensureAuthenticated s now tokenResp).state := by
  simp only [getDispatch]
  repeat first | rfl | split

theorem postDispatch_state {α : Type} (s : Session) (now : Int) (tokenResp : TokenEndpointResponse)
    (endpoint : String) (body : String) (resp : HttpResponse)
    (parseJson : String → Option α) :
    (postDispatch s now tokenResp endpoint body resp parseJson).state
      = (ensureAuthenticated s now tokenResp).state := by
  simp only [postDispatch]
  repeat first | rfl | split

theorem sessionInv_authenticate (s : Session) (resp : TokenEndpointResponse)
    (h : SessionInv s) : SessionInv (authenticate s resp).state := by
  rcases authenticate_state_cases s resp with hs | ⟨r, _, hs⟩ <;> rw [hs]
  · exact h
  · simp [SessionInv]

theorem sessionInv_refresh (s : Session) (resp : TokenEndpointResponse)
    (h : SessionInv s) : SessionInv (refreshAuthentication s resp).state := by
  rcases refreshAuthentication_state_cases s resp with hs | ⟨r, _, hs⟩ <;> rw [hs]
  · exact h
  · simp [SessionInv]

theorem sessionInv_ensure (s : Session) (now : Int) (resp : TokenEndpointResponse)
    (h : SessionInv s) : SessionInv (ensureAuthenticated s now resp).state := by
  rcases ensureAuthenticated_state_cases s now resp with hs | hs <;> rw [hs]
  · exact h
  · exact sessionInv_refresh s resp h

/-! ### C1 -/

/-- C1. Session-triple invariant: in every reachable client state the token is
present exactly when the expiry instant is present; a successful
`authenticate` or `refreshAuthentication` leaves all three session fields
simultaneously present (the whole triple is replaced), `clearAuth` leaves all
three absent, and every operation of the client preserves the invariant
(reachability is closed under all of them). -/
theorem session_triple_invariant :
    (∀ s : Session, Reachable s → (s.requestKey.isSome ↔ s.requestKeyExpiresAt.isSome)) ∧
    (∀ (s : Session) (resp : TokenEndpointResponse), (authenticate s resp).result = .ok () →
      (authenticate s resp).state.requestKey.isSome ∧
      (authenticate s resp).state.refreshKey.isSome ∧
      (authenticate s resp).state.requestKeyExpiresAt.isSome) ∧
    (∀ (s : Session) (resp : TokenEndpointResponse),
      (refreshAuthentication s resp).result = .ok () →
      (refreshAuthentication s resp).state.requestKey.isSome ∧
      (refreshAuthentication s resp).state.refreshKey.isSome ∧
      (refreshAuthentication s resp).state.requestKeyExpiresAt.isSome) ∧
    (∀ s : Session, (clearAuth s).requestKey = none ∧ (clearAuth s).refreshKey = none ∧
      (clearAuth s).requestKeyExpiresAt = none) := by
  refine ⟨?_, ?_, ?_, ?_⟩
  · intro s h
    induction h with
    | init => simp [initialSession]
    | auth s resp _ ih => exact sessionInv_authenticate s resp ih
    | refresh s resp _ ih => exact sessionInv_refresh s resp ih
    | clear s _ _ => simp [clearAuth]
    | ensure s now resp _ ih => exact sessionInv_ensure s now resp ih
    | doGet s now tokenResp endpoint params resp parseJson _ ih =>
        rw [getDispatch_state]; exact sessionInv_ensure s now tokenResp ih
    | doPost s now tokenResp endpoint body resp parseJson _ ih =>
        rw [postDispatch_state]; exact sessionInv_ensure s now tokenResp ih
  · intro s resp h
    cases hr : requestNewKey resp with
    | error e => simp [authenticate, hr] at h
    | ok r => simp [authenticate, hr]
  · intro s resp h
    by_cases hk : strTruthy s.refreshKey
    · cases hr : requestNewKey resp with
      | error e => simp [refreshAuthentication, hk, hr] at h
      | ok r => simp [refreshAuthentication, hk, hr]
    · simp [refreshAuthentication, hk] at h
  · intro s
    simp [clearAuth]

/-- Witness: the invariant at the constructor state, and the triple after a
concrete successful authentication. -/
theorem session_triple_invariant_witness :
    (initialSession.requestKey.isSome ↔ initialSession.requestKeyExpiresAt.isSome) ∧
    ((authenticate initialSession
        (.success { request_key := "tk", refresh_key := "rk", end_time := 1700003600000 })).state.requestKey.isSome ∧
     (authenticate initialSession
        (.success { request_key := "tk", refresh_key := "rk", end_time := 1700003600000 })).state.refreshKey.isSome ∧
     (authenticate initialSession
        (.success { request_key := "tk", refresh_key := "rk", end_time := 1700003600000 })).state.requestKeyExpiresAt.isSome) :=
  ⟨session_triple_invariant.1 initialSession Reachable.init,
   session_triple_invariant.2.1 initialSession
     (.success { request_key := "tk", refresh_key := "rk", end_time := 1700003600000 }) rfl⟩

/-! ### C2 -/

/-- A fully populated session with the given expiry, used for concrete
instances in the theorems below. -/
def sessionWith (e : Int) : Session :=
  { requestKey := some "tk", refreshKey := some "rk", requestKeyExpiresAt := some e }

theorem ensure_trigger_refresh (s : Session) (now : Int) (resp : TokenEndpointResponse)
    (h1 : strTruthy s.requestKey = true) (h2 : shouldRefresh s now = true) :
    ensureAuthenticated s now resp = refreshAuthentication s resp := by
  simp [ensureAuthenticated, h1, h2]

theorem ensure_no_refresh (s : Session) (now : Int) (resp : TokenEndpointResponse)
    (h1 : strTruthy s.requestKey = true) (h2 : shouldRefresh s now = false) :
    ensureAuthenticated s now resp = { result := .ok (), state := s, calls := [] } := by
  simp [ensureAuthenticated, h1, h2]

theorem refreshAuthentication_calls_of_truthy (s : Session) (resp : TokenEndpointResponse)
    (h : strTruthy s.refreshKey = true) :
    (refreshAuthentication s resp).calls = [.tokenRequest "refresh_key"] := by
  cases hr : requestNewKey resp <;> simp [refreshAuthentication, h, hr]

/-- C2. Lazy refresh trigger: `ensureAuthenticated` throws the
not-authenticated error when the token is absent; with the token present it
becomes exactly one `refreshAuthentication` invocation precisely when the
expiry is present and less than one hour (`oneHourMs`) past the current
instant, and otherwise returns with no network call; an expiry 30 minutes
away yields exactly one token-endpoint call, one 2 hours away yields none. -/
theorem ensure_lazy_refresh_trigger :
    (∀ (s : Session) (now : Int) (resp : TokenEndpointResponse),
      strTruthy s.requestKey = false →
        ensureAuthenticated s now resp
          = { result := .error .notAuthenticated, state := s, calls := [] }) ∧
    (∀ (s : Session) (now : Int), shouldRefresh s now = true ↔
        ∃ e, s.requestKeyExpiresAt = some e ∧ e < now + oneHourMs) ∧
    (∀ (s : Session) (now : Int) (resp : TokenEndpointResponse),
      strTruthy s.requestKey = true → shouldRefresh s now = true →
        ensureAuthenticated s now resp = refreshAuthentication s resp) ∧
    (∀ (s : Session) (now : Int) (resp : TokenEndpointResponse),
      strTruthy s.requestKey = true → shouldRefresh s now = false →
        ensureAuthenticated s now resp = { result := .ok (), state := s, calls := [] }) ∧
    (∀ (now : Int) (resp : TokenEndpointResponse),
        (ensureAuthenticated (sessionWith ((now + 30 * 60 * 1000))) now resp).calls
          = [.tokenRequest "refresh_key"]) ∧
    (∀ (now : Int) (resp : TokenEndpointResponse),
        (ensureAuthenticated (sessionWith ((now + 2 * 60 * 60 * 1000))) now resp).calls = []) := by
  refine ⟨?_, ?_, ?_, ?_, ?_, ?_⟩
  · intro s now resp h
    simp [ensureAuthenticated, h]
  · intro s now
    cases h : s.requestKeyExpiresAt <;> simp [shouldRefresh, h]
  · intro s now resp h1 h2
    simp [ensureAuthenticated, h1, h2]
  · intro s now resp h1 h2
    simp [ensureAuthenticated, h1, h2]
  · intro now resp
    have h2 : shouldRefresh (sessionWith (now + 30 * 60 * 1000)) now = true := by
      simp [shouldRefresh, sessionWith, oneHourMs]; try omega
    rw [ensure_trigger_refresh _ _ _ (by simp [sessionWith, strTruthy]) h2]
    exact refreshAuthentication_calls_of_truthy _ _ (by simp [sessionWith, strTruthy])
  · intro now resp
    have h2 : shouldRefresh (sessionWith (now + 2 * 60 * 60 * 1000)) now = false := by
      simp [shouldRefresh, sessionWith, oneHourMs]; try omega
    rw [ensure_no_refresh _ _ _ (by simp [sessionWith, strTruthy]) h2]

/-- Witness: the three guarded cases of C2 at concrete inputs. -/
theorem ensure_lazy_refresh_trigger_witness :
    (ensureAuthenticated initialSession 0 (.failure 500 "Internal Server Error" none)
      = { result := .error .notAuthenticated, state := initialSession, calls := [] }) ∧
    (ensureAuthenticated (sessionWith (0)) 0 (.failure 500 "Internal Server Error" none)
      = refreshAuthentication (sessionWith (0)) (.failure 500 "Internal Server Error" none)) ∧
    (ensureAuthenticated (sessionWith (99999999999)) 0 (.failure 500 "Internal Server Error" none)
      = { result := .ok (), state := (sessionWith (99999999999)), calls := [] }) :=
  ⟨ensure_lazy_refresh_trigger.1 initialSession 0 _ (by decide),
   ensure_lazy_refresh_trigger.2.2.1 _ 0 _ (by decide) (by decide),
   ensure_lazy_refresh_trigger.2.2.2.1 _ 0 _ (by decide) (by decide)⟩

/-! ### C3 -/

/-- C3. Point-in-time liveness: `isAuthenticated` is true exactly when the
token passes the presence check and the expiry instant is present and
strictly after the current instant; a token expiring in 30 minutes still
yields true (no one-hour look-ahead margin), and a past expiry yields
false. -/
theorem isAuthenticated_pointwise :
    (∀ (s : Session) (now : Int),
      isAuthenticated s now = true ↔
        (strTruthy s.requestKey = true ∧ ∃ e, s.requestKeyExpiresAt = some e ∧ now < e)) ∧
    (∀ now : Int, isAuthenticated (sessionWith ((now + 30 * 60 * 1000))) now = true) ∧
    (∀ (now e : Int), e ≤ now →
      isAuthenticated (sessionWith (e)) now = false) := by
  refine ⟨?_, ?_, ?_⟩
  · intro s now
    rcases s with ⟨k, rk, ex⟩
    cases k <;> cases ex <;> simp [isAuthenticated, strTruthy]
  · intro now
    simp [isAuthenticated, sessionWith]; try omega
  · intro now e h
    simp [isAuthenticated, sessionWith]; try omega

/-- Witness: a token whose expiry is in the past yields false. -/
theorem isAuthenticated_pointwise_witness :
    isAuthenticated (sessionWith (0)) 5 = false :=
  isAuthenticated_pointwise.2.2 5 0 (by decide)

/-! ### C10 -/

/-- C10. `getRequestKey` checks only presence, never expiry: with the token
present it returns the token even when the expiry instant is already past —
a state in which `isAuthenticated` is false — and it throws exactly when the
token fails the presence check. -/
theorem getRequestKey_presence_only :
    (∀ s : Session, strTruthy s.requestKey = false →
      getRequestKey s = .error .notAuthenticated) ∧
    (∀ (s : Session) (k : String), s.requestKey = some k → k ≠ "" → getRequestKey s = .ok k) ∧
    (∀ (s : Session) (now e : Int) (k : String),
      s.requestKey = some k → k ≠ "" → s.requestKeyExpiresAt = some e → e ≤ now →
        getRequestKey s = .ok k ∧ isAuthenticated s now = false) := by
  refine ⟨?_, ?_, ?_⟩
  · intro s h
    rcases hk : s.requestKey with _ | k
    · simp [getRequestKey, hk]
    · rw [hk] at h
      simp [strTruthy] at h
      simp [getRequestKey, hk, h]
  · intro s k hk hne
    simp [getRequestKey, hk, hne]
  · intro s now e k hk hne hex hle
    refine ⟨by simp [getRequestKey, hk, hne], ?_⟩
    rcases s with ⟨k2, rk, ex⟩
    simp only [Session.mk.injEq] at hk hex
    subst hk hex
    simp [isAuthenticated]
    omega

/-- Witness: an expired but present token is returned while
`isAuthenticated` reports false. -/
theorem getRequestKey_presence_only_witness :
    getRequestKey (sessionWith (0)) = .ok "tk" ∧
    isAuthenticated (sessionWith (0)) 5 = false :=
  getRequestKey_presence_only.2.2 _ 5 0 "tk" rfl (by decide) rfl (by decide)

/-! ### C6 (amended) -/

/-- C6, amended: with the refresh key absent (in particular on a
never-authenticated client) `refreshAuthentication` throws the
authentication error whose message is
"No refresh key available. Call authenticate() first." (citing the absence
of a refresh key), performs no network call, and leaves the session state
unchanged. -/
theorem refresh_requires_refresh_key (s : Session) (resp : TokenEndpointResponse)
    (h : strTruthy s.refreshKey = false) :
    refreshAuthentication s resp
      = { result := .error .noRefreshKey, state := s, calls := [] } ∧
    SikkaError.noRefreshKey.message
      = "No refresh key available. Call authenticate() first." := by
  exact ⟨by simp [refreshAuthentication, h], rfl⟩

/-- Witness: the amended C6 at the never-authenticated client. -/
theorem refresh_requires_refresh_key_witness :
    refreshAuthentication initialSession (.failure 500 "Internal Server Error" none)
      = { result := .error .noRefreshKey, state := initialSession, calls := [] } ∧
    SikkaError.noRefreshKey.message
      = "No refresh key available. Call authenticate() first." :=
  refresh_requires_refresh_key initialSession _ (by decide)

/-- C6 counterexample: the error a never-authenticated refresh throws does
not carry the message "no refresh token available" that the claim states —
its message is "No refresh key available. Call authenticate() first." -/
theorem refresh_precondition_message_counterexample :
    (refreshAuthentication initialSession (.failure 500 "Internal Server Error" none)).result
      = .error .noRefreshKey ∧
    SikkaError.noRefreshKey.message = "No refresh key available. Call authenticate() first." ∧
    ¬ SikkaError.noRefreshKey.message = "no refresh token available" :=
  ⟨rfl, rfl, by decide⟩

/-! ### C5 -/

/-- C5. Authentication failure message extraction: a non-success token
endpoint response makes `requestNewKey` (and so `authenticate` /
`refreshAuthentication`) throw the authentication error whose message is the
body field `error_description` when present, else `error`, else `message`,
else the fallback `status statusText`; an unparsable body also yields the
fallback; and a failed `authenticate` on a never-authenticated client leaves
the state unchanged, so `isAuthenticated` stays false. -/
theorem auth_failure_message_extraction :
    (∀ (st : Nat) (stx : String) (d : String) (oe om : Option String),
      requestNewKey (.failure st stx (some ⟨some d, oe, om⟩)) = .error (.authFailed d)) ∧
    (∀ (st : Nat) (stx : String) (x : String) (om : Option String),
      requestNewKey (.failure st stx (some ⟨none, some x, om⟩)) = .error (.authFailed x)) ∧
    (∀ (st : Nat) (stx : String) (m : String),
      requestNewKey (.failure st stx (some ⟨none, none, some m⟩)) = .error (.authFailed m)) ∧
    (∀ (st : Nat) (stx : String),
      requestNewKey (.failure st stx (some ⟨none, none, none⟩))
        = .error (.authFailed (toString st ++ " " ++ stx))) ∧
    (∀ (st : Nat) (stx : String),
      requestNewKey (.failure st stx none)
        = .error (.authFailed (toString st ++ " " ++ stx))) ∧
    ((SikkaError.authFailed "Invalid secret key").message
        = "Sikka authentication failed: Invalid secret key") ∧
    (∀ (st : Nat) (stx : String) (b : Option SikkaApiError) (now : Int),
      (authenticate initialSession (.failure st stx b)).state = initialSession ∧
      (∃ m, (authenticate initialSession (.failure st stx b)).result
          = .error (.authFailed m)) ∧
      isAuthenticated (authenticate initialSession (.failure st stx b)).state now = false) :=
  ⟨fun _ _ _ _ _ => rfl, fun _ _ _ _ => rfl, fun _ _ _ => rfl, fun _ _ => rfl,
   fun _ _ => rfl, rfl, fun _ _ _ _ => ⟨rfl, ⟨_, rfl⟩, rfl⟩⟩

/-! ### C4 -/

theorem getRequestKey_of_truthy (s : Session) (h : strTruthy s.requestKey = true) :
    ∃ k, s.requestKey = some k ∧ getRequestKey s = .ok k := by
  rcases hk : s.requestKey with _ | k
  · rw [hk] at h; simp [strTruthy] at h
  · rw [hk] at h
    simp [strTruthy] at h
    exact ⟨k, rfl, by simp [getRequestKey, hk, h]⟩

/-- C4. Asymmetric empty-body tolerance: on a successful response whose body
text is empty or all-whitespace, an authenticated GET returns the empty
envelope (item sequence of length 0) for every JSON parser, i.e. without
consulting it, while a POST hands the same body to the JSON parser directly
and therefore fails with the parse error (the hypothesis on the parser is
the fact that parsing an all-whitespace document fails). -/
theorem dispatch_empty_body_asymmetry
    (s : Session) (now : Int) (tresp : TokenEndpointResponse)
    (endpointG endpointP postBody : String) (params : List (String × String))
    (resp : HttpResponse) (parseG parseP : String → Option (Envelope SikkaTransaction))
    (h1 : strTruthy s.requestKey = true) (h2 : shouldRefresh s now = false)
    (hok : resp.ok = true) (hempty : (resp.body == "" || resp.body.trim == "") = true)
    (hparse : parseP resp.body = none) :
    (getDispatch s now tresp endpointG params resp parseG).result
        = .ok { items := [] } ∧
    (postDispatch s now tresp endpointP postBody resp parseP).result
        = .error .jsonParseFailed := by
  have hens := ensure_no_refresh s now tresp h1 h2
  obtain ⟨k, _, hgk⟩ := getRequestKey_of_truthy s h1
  constructor
  · simp only [getDispatch, hens, hgk, hok, hempty, if_true]
  · simp [postDispatch, hens, hgk, hok, hparse]

/-- Witness: a 200 response with the empty-string body, with a parser that
fails on it as `JSON.parse` does. -/
theorem dispatch_empty_body_asymmetry_witness :
    (getDispatch (sessionWith 99999999999) 0 (.failure 500 "Internal Server Error" none)
        "/v4/patients" [] { ok := true, status := 200, statusText := "OK", body := "" }
        (fun _ => (none : Option (Envelope SikkaTransaction)))).result
      = .ok { items := [] } ∧
    (postDispatch (sessionWith 99999999999) 0 (.failure 500 "Internal Server Error" none)
        "/v4/claim_payment" "{}" { ok := true, status := 200, statusText := "OK", body := "" }
        (fun _ => (none : Option (Envelope SikkaTransaction)))).result
      = .error .jsonParseFailed :=
  dispatch_empty_body_asymmetry (sessionWith 99999999999) 0
    (.failure 500 "Internal Server Error" none) "/v4/patients" "/v4/claim_payment" "{}" []
    { ok := true, status := 200, statusText := "OK", body := "" }
    (fun _ => none) (fun _ => none) (by decide) (by decide) rfl rfl rfl

/-! ### C7 -/

theorem qlookup_map_set_ne (q : List (String × String)) (k key v : String) (h : k ≠ key) :
    qlookup k (q.map (fun p => if p.1 == key then (key, v) else p)) = qlookup k q := by
  induction q with
  | nil => rfl
  | cons p rest ih =>
    by_cases hp : p.1 = key
    · simp [qlookup, hp, Ne.symm h, h] at ih ⊢
      exact ih
    · simp [qlookup, hp] at ih ⊢
      rw [ih]

theorem qlookup_append_ne (q : List (String × String)) (k key v : String) (h : k ≠ key) :
    qlookup k (q ++ [(key, v)]) = qlookup k q := by
  induction q with
  | nil => simp [qlookup, Ne.symm h, h]
  | cons p rest ih => simp [qlookup, ih]

theorem qlookup_setParam_ne (q : List (String × String)) (k key v : String) (h : k ≠ key) :
    qlookup k (setParam q key v) = qlookup k q := by
  unfold setParam
  split
  · exact qlookup_map_set_ne q k key v h
  · exact qlookup_append_ne q k key v h

theorem qlookup_map_set_self (q : List (String × String)) (key v : String)
    (h : q.any (fun p => p.1 == key) = true) :
    qlookup key (q.map (fun p => if p.1 == key then (key, v) else p)) = some v := by
  induction q with
  | nil => simp at h
  | cons p rest ih =>
    by_cases hp : p.1 = key
    · simp [qlookup, hp]
    · have h2 : rest.any (fun p => p.1 == key) = true := by simpa [hp] using h
      have ihh := ih h2
      simp [qlookup, hp] at ihh ⊢
      exact ihh

theorem qlookup_append_self (q : List (String × String)) (key v : String)
    (h : ¬ q.any (fun p => p.1 == key) = true) :
    qlookup key (q ++ [(key, v)]) = some v := by
  induction q with
  | nil => simp [qlookup]
  | cons p rest ih =>
    simp only [List.any_cons, Bool.or_eq_true, not_or] at h
    have hp : ¬ p.1 = key := by simpa using h.1
    simp [qlookup, hp, ih h.2]

theorem qlookup_setParam_self (q : List (String × String)) (key v : String) :
    qlookup key (setParam q key v) = some v := by
  unfold setParam
  split
  next h => exact qlookup_map_set_self q key v h
  next h => exact qlookup_append_self q key v h

theorem qlookup_foldl_not_mem (params : List (String × String)) (q : List (String × String))
    (k : String) (h : ∀ kv ∈ params, kv.1 ≠ k) :
    qlookup k (params.foldl (fun acc kv => setParam acc kv.1 kv.2) q) = qlookup k q := by
  induction params generalizing q with
  | nil => rfl
  | cons kv rest ih =>
    simp only [List.foldl_cons]
    rw [ih _ fun x hx => h x (List.mem_cons_of_mem _ hx)]
    exact qlookup_setParam_ne q k kv.1 kv.2 fun he => h kv (List.mem_cons_self _ _) he.symm

theorem buildQuery_patients_john (token : String) :
    buildQuery token (patientListQueryParams { firstname := some "John" })
      = [("request_key", token), ("firstname", "John")] := by
  simp [buildQuery, patientListQueryParams, addIfTruthyStr, addIfTruthyNat, setParam]

/-- The session of an authenticated client holding the given token, used for
the concrete request-construction instances. -/
def sessionTok (token : String) (e : Int) : Session :=
  { requestKey := some token, refreshKey := some "rk", requestKeyExpiresAt := some e }

/-- C7. GET query construction: the query of an authenticated GET binds
`request_key` to the current token whenever the caller params do not
themselves use that key; a caller-supplied parameter overwrites the
same-named default; and `patients.list` with only `firstname: John` yields a
request whose query is exactly `request_key=<token>` and `firstname=John`,
with no other filter keys. -/
theorem get_query_construction :
    (∀ (token : String) (params : List (String × String)),
      (∀ kv ∈ params, kv.1 ≠ "request_key") →
        qlookup "request_key" (buildQuery token params) = some token) ∧
    (∀ (token k v : String), qlookup k (buildQuery token [(k, v)]) = some v) ∧
    (∀ token : String,
      buildQuery token (patientListQueryParams { firstname := some "John" })
        = [("request_key", token), ("firstname", "John")]) ∧
    (∀ (token : String) (now e : Int) (tresp : TokenEndpointResponse) (resp : HttpResponse)
        (parseG : String → Option (Envelope SikkaTransaction)),
      token ≠ "" → shouldRefresh (sessionTok token e) now = false →
        (getDispatch (sessionTok token e) now tresp "/v4/patients"
            (patientListQueryParams { firstname := some "John" }) resp parseG).calls
          = [.domainGet "/v4/patients" [("request_key", token), ("firstname", "John")]]) := by
  refine ⟨?_, ?_, ?_, ?_⟩
  · intro token params h
    unfold buildQuery
    rw [qlookup_foldl_not_mem params _ _ h]
    exact qlookup_setParam_self [] "request_key" token
  · intro token k v
    simpa [buildQuery] using qlookup_setParam_self (setParam [] "request_key" token) k v
  · exact buildQuery_patients_john
  · intro token now e tresp resp parseG htok h2
    have h1 : strTruthy (sessionTok token e).requestKey = true := by
      simp [sessionTok, strTruthy, htok]
    have hens := ensure_no_refresh (sessionTok token e) now tresp h1 h2
    have hgk : getRequestKey (sessionTok token e) = .ok token := by
      simp [getRequestKey, sessionTok, htok]
    simp only [getDispatch, hens, hgk, buildQuery_patients_john]
    split
    · split
      · simp
      · cases parseG resp.body <;> simp
    · simp

/-- Witness: the query of a concrete `patients.list` request holds exactly
the token binding and the firstname filter. -/
theorem get_query_construction_witness :
    qlookup "request_key" (buildQuery "tok" [("firstname", "John")]) = some "tok" ∧
    (getDispatch (sessionTok "tok" 99999999999) 0 (.failure 500 "Internal Server Error" none)
        "/v4/patients" (patientListQueryParams { firstname := some "John" })
        { ok := true, status := 200, statusText := "OK", body := "" }
        (fun _ => (none : Option (Envelope SikkaTransaction)))).calls
      = [.domainGet "/v4/patients" [("request_key", "tok"), ("firstname", "John")]] :=
  ⟨get_query_construction.1 "tok" [("firstname", "John")] (by decide),
   get_query_construction.2.2.2 "tok" 0 99999999999 (.failure 500 "Internal Server Error" none)
     { ok := true, status := 200, statusText := "OK", body := "" } (fun _ => none)
     (by decide) (by decide)⟩

/-! ### C8 -/

/-- A procedure-tagged transaction for claim 123. -/
def procTxn : SikkaTransaction :=
  { transaction_sr_no := "1", claim_sr_no := "123", transaction_type := "Procedure" }

/-- A payment-tagged transaction for claim 123. -/
def payTxn : SikkaTransaction :=
  { transaction_sr_no := "2", claim_sr_no := "123", transaction_type := "Payment" }

/-- C8. Derived procedure filter: for any transaction list that the
underlying list call returns, `listProcedures` keeps exactly the entries
whose transaction-kind tag equals "Procedure": the result is an
order-preserving subsequence, membership is exactly membership with that
tag, multiplicities of tagged entries are preserved, and the concrete
Procedure/Payment pair yields only the Procedure entry. -/
theorem listProcedures_filter_exact :
    (∀ ts : List SikkaTransaction, (listProceduresFilter ts).Sublist ts) ∧
    (∀ (ts : List SikkaTransaction) (t : SikkaTransaction),
      t ∈ listProceduresFilter ts ↔ t ∈ ts ∧ t.transaction_type = "Procedure") ∧
    (∀ (ts : List SikkaTransaction) (t : SikkaTransaction),
      t.transaction_type = "Procedure" →
        (listProceduresFilter ts).count t = ts.count t) ∧
    (listProceduresFilter [procTxn, payTxn] = [procTxn]) := by
  refine ⟨?_, ?_, ?_, ?_⟩
  · intro ts
    exact List.filter_sublist ts
  · intro ts t
    simp [listProceduresFilter, List.mem_filter]
  · intro ts t h
    induction ts with
    | nil => rfl
    | cons x rest ih =>
      by_cases hx : x.transaction_type = "Procedure"
      · have hxx : (x.transaction_type == "Procedure") = true := by simp [hx]
        simp [listProceduresFilter, List.filter_cons, hxx, List.count_cons] at ih ⊢
        omega
      · have hxx : (x.transaction_type == "Procedure") = false := by simp [hx]
        have hne : ¬ t = x := fun he => hx (he ▸ h)
        simp [listProceduresFilter, List.filter_cons, hxx, List.count_cons, hne] at ih ⊢
        exact ih
  · decide

/-- Witness: the multiplicity of the Procedure entry is preserved on the
concrete Procedure/Payment list. -/
theorem listProcedures_filter_exact_witness :
    (listProceduresFilter [procTxn, payTxn]).count procTxn
      = ([procTxn, payTxn] : List SikkaTransaction).count procTxn :=
  listProcedures_filter_exact.2.2.1 [procTxn, payTxn] procTxn (by decide)

/-! ### C9 -/

theorem refreshAuthentication_calls_cases (s : Session) (resp : TokenEndpointResponse) :
    (refreshAuthentication s resp).calls = [] ∨
      (refreshAuthentication s resp).calls = [.tokenRequest "refresh_key"] := by
  by_cases h : strTruthy s.refreshKey = true
  · exact Or.inr (refreshAuthentication_calls_of_truthy s resp h)
  · rw [Bool.not_eq_true] at h
    exact Or.inl (by simp [refreshAuthentication, h])

/-- C9. Refresh-failure propagation: when a domain GET or POST triggers a
refresh inside `ensureAuthenticated` and that refresh fails, the domain call
fails with the very error the refresh threw, and no domain request is among
the network calls it performed (only the token-endpoint call, if any). -/
theorem refresh_failure_propagation
    (s : Session) (now : Int) (tresp : TokenEndpointResponse)
    (endpointG endpointP postBody : String) (params : List (String × String))
    (resp : HttpResponse) (parseG : String → Option (Envelope SikkaTransaction))
    (parseP : String → Option (Envelope SikkaTransaction)) (err : SikkaError)
    (h1 : strTruthy s.requestKey = true) (h2 : shouldRefresh s now = true)
    (herr : (refreshAuthentication s tresp).result = .error err) :
    (getDispatch s now tresp endpointG params resp parseG).result = .error err ∧
    (getDispatch s now tresp endpointG params resp parseG).calls.all
        (fun c => ! c.isDomain) = true ∧
    (postDispatch s now tresp endpointP postBody resp parseP).result = .error err ∧
    (postDispatch s now tresp endpointP postBody resp parseP).calls.all
        (fun c => ! c.isDomain) = true := by
  have hens := ensure_trigger_refresh s now tresp h1 h2
  have hcalls := refreshAuthentication_calls_cases s tresp
  refine ⟨?_, ?_, ?_, ?_⟩
  · simp [getDispatch, hens, herr]
  · rcases hcalls with hc | hc <;> simp [getDispatch, hens, herr, hc, NetCall.isDomain]
  · simp [postDispatch, hens, herr]
  · rcases hcalls with hc | hc <;> simp [postDispatch, hens, herr, hc, NetCall.isDomain]

/-- Witness: a concrete near-expiry session whose refresh fails with a 401,
propagated out of both dispatchers with no domain call sent. -/
theorem refresh_failure_propagation_witness :
    (getDispatch (sessionWith 0) 0 (.failure 401 "Unauthorized" none) "/v4/patients" []
        { ok := true, status := 200, statusText := "OK", body := "" }
        (fun _ => (none : Option (Envelope SikkaTransaction)))).result
      = .error (.authFailed "401 Unauthorized") ∧
    (getDispatch (sessionWith 0) 0 (.failure 401 "Unauthorized" none) "/v4/patients" []
        { ok := true, status := 200, statusText := "OK", body := "" }
        (fun _ => (none : Option (Envelope SikkaTransaction)))).calls.all
        (fun c => ! c.isDomain) = true ∧
    (postDispatch (sessionWith 0) 0 (.failure 401 "Unauthorized" none) "/v4/claim_payment" "{}"
        { ok := true, status := 200, statusText := "OK", body := "" }
        (fun _ => (none : Option (Envelope SikkaTransaction)))).result
      = .error (.authFailed "401 Unauthorized") ∧
    (postDispatch (sessionWith 0) 0 (.failure 401 "Unauthorized" none) "/v4/claim_payment" "{}"
        { ok := true, status := 200, statusText := "OK", body := "" }
        (fun _ => (none : Option (Envelope SikkaTransaction)))).calls.all
        (fun c => ! c.isDomain) = true :=
  refresh_failure_propagation (sessionWith 0) 0 (.failure 401 "Unauthorized" none)
    "/v4/patients" "/v4/claim_payment" "{}" []
    { ok := true, status := 200, statusText := "OK", body := "" }
    (fun _ => none) (fun _ => none) (.authFailed "401 Unauthorized")
    (by decide) (by decide) rfl

end Sikka
